import Mathlib

/-!
Verification model of the subprocess execution and supervision engine of the
Gemini-Coder repository (source files src/ccg_mcp/tools/coder.py and
src/ccg_mcp/tools/claude.py). The two tool implementations are near
identical; they are modelled by one set of definitions parameterised over a
ToolCfg value that records the few places where they differ (tool name,
message texts, whether the per-line unexpected-exception handler is
present, whether the error detail carries suggestion strings).

Wall-clock time, threads and the operating-system process are abstracted:
one invocation attempt is represented by the finite sequence of output
lines the generator yielded together with how the generator ended (normal
exhaustion, or a raised timeout signal). The per-line interpretation, the
outcome classification, the diagnostic redaction filter and the retry loop
are translated statement by statement from the source. Computations that
can raise a Python exception which the source does not catch are modelled
with Except, the error carrying the exception type name.
-/

namespace CcgMcp

/-- JSON values as decoded by json.loads. Objects keep their field order as
an association list; numbers are modelled as integers (no claim concerns
fractional values). -/
inductive Json where
| null : Json
| bool (b : Bool) : Json
| num (n : Int) : Json
| str (s : String) : Json
| arr (elems : List Json) : Json
| obj (fields : List (String × Json)) : Json

/-- Python dict lookup: value of the first matching key, none if absent. -/
def lookupField : List (String × Json) → String → Option Json
| [], _ => none
| (k, v) :: rest, key => if k = key then some v else lookupField rest key

/-- data.get(key) on a decoded value that is an object; none when the key
is absent or the value is not an object. -/
def Json.getField? : Json → String → Option Json
| Json.obj fs, key => lookupField fs key
| _, _ => none

/-- Python dict item assignment: replace the value in place when the key
exists (keeping its position), append a new entry otherwise. -/
def setKey : List (String × Json) → String → Json → List (String × Json)
| [], key, v => [(key, v)]
| (k, w) :: rest, key, v =>
  if k = key then (k, v) :: rest else (k, w) :: setKey rest key v

/-- Python: key in dict. -/
def hasKey (j : Json) (key : String) : Bool :=
match j with
| Json.obj fs => (lookupField fs key).isSome
| _ => false

/-- Python truthiness of a decoded JSON value. -/
def pyTruthy : Json → Bool
| Json.null => false
| Json.bool b => b
| Json.num n => n != 0
| Json.str s => s != ""
| Json.arr xs => ! xs.isEmpty
| Json.obj fs => ! fs.isEmpty

/-- Model of the pattern data.get("type", "") compared with string tags:
the held string when the field is a string, the empty string otherwise.
A non-string field value compares unequal to every tag, exactly as in
Python, and no tag compared against is empty. -/
def tagOf (j : Json) (key : String) : String :=
match j.getField? key with
| some (Json.str s) => s
| _ => ""

/-- Model of session_id = line_dict.get(key): Python None both for an
absent key and for a JSON null value, the decoded value otherwise. -/
def pyGetOpt (j : Json) (key : String) : Option Json :=
match j.getField? key with
| some Json.null => none
| some v => some v
| none => none

/-- Python: a or b (the first operand when truthy, the second otherwise). -/
def pyOr (a b : Json) : Json := if pyTruthy a then a else b

/-- Python: isinstance(block, dict) and block.get("type") == tag. -/
def isTypeTag (b : Json) (tag : String) : Bool :=
match b with
| Json.obj _ => tagOf b "type" = tag
| _ => false

/-- Python falsiness of an optional value (None is falsy). -/
def pyFalsyOpt : Option Json → Bool
| none => true
| some v => ! pyTruthy v

/-- Serializer shared by the models of Python str() (py = true, repr style
with single quotes) and json.dumps (py = false). The produced text only
feeds human-readable messages; no claim inspects it. -/
def serialize (py : Bool) : Json → String
| Json.null => if py then "None" else "null"
| Json.bool b =>
  if py then (if b then "True" else "False") else (if b then "true" else "false")
| Json.num n => toString n
| Json.str s => if py then "\x27" ++ s ++ "\x27" else "\"" ++ s ++ "\""
| Json.arr xs =>
  "[" ++ String.intercalate ", " (xs.attach.map (fun x => serialize py x.1)) ++ "]"
| Json.obj fs =>
  "\x7b" ++ String.intercalate ", "
      (fs.attach.map (fun f =>
        (if py then "\x27" ++ f.1.1 ++ "\x27: " else "\"" ++ f.1.1 ++ "\": ")
          ++ serialize py f.1.2)) ++ "\x7d"
decreasing_by
· have := List.sizeOf_lt_of_mem x.2
  simp only [Json.arr.sizeOf_spec]
  omega
· have h1 := List.sizeOf_lt_of_mem f.2
  have h2 : sizeOf f.1.2 < sizeOf f.1 := by
    cases f.1 with
    | mk a b => simp only [Prod.mk.sizeOf_spec]; omega
  simp only [Json.obj.sizeOf_spec]
  omega

/-- One stripped output line, represented by the outcome of json.loads on
it: raw for a line that fails structured decoding, json for a line that
decodes (the original byte text of a decoded line is abstracted by its
decoded value). -/
inductive Line where
| raw (s : String) : Line
| json (j : Json) : Line

/-- Model of Python repr of the line text, used in the unexpected-error
message of coder.py line 774. For a decoded line the canonical json.dumps
form stands in for the original bytes. -/
def lineRepr : Line → String
| Line.raw s => "\x27" ++ s ++ "\x27"
| Line.json j => "\x27" ++ serialize false j ++ "\x27"

/-- The ErrorKind enumeration of coder.py lines 46-57 and claude.py lines
46-57 (identical). -/
inductive ErrorKind where
| timeout
| idleTimeout
| commandNotFound
| upstreamError
| jsonDecode
| protocolMissingSession
| emptyResult
| subprocessError
| configError
| unexpectedException
deriving DecidableEq

/-- The nine error kinds a failure outcome can carry. The tenth enumeration
member, jsonDecode, is declared in the source but never assigned. -/
def allKinds : List ErrorKind :=
[ErrorKind.timeout, ErrorKind.idleTimeout, ErrorKind.commandNotFound,
 ErrorKind.upstreamError, ErrorKind.protocolMissingSession,
 ErrorKind.emptyResult, ErrorKind.subprocessError, ErrorKind.configError,
 ErrorKind.unexpectedException]

/-- Where the coder and claude tool implementations differ textually. -/
structure ToolCfg where
  toolName : String
  /-- coder.py lines 773-777 catch any exception raised while interpreting
  an output line; the corresponding loop of claude.py has no such handler. -/
  catchUnexpected : Bool
  /-- The _build_error_detail of coder.py adds suggestion strings for the
  timeout kinds; the one of claude.py does not. -/
  suggestions : Bool
  cmdNotFoundMsg : String
  emptyResultPrefix : String

/-- coder.py configuration (source of the message texts: lines 179-181,
838). -/
def coderCfg : ToolCfg :=
{ toolName := "coder",
  catchUnexpected := true,
  suggestions := true,
  cmdNotFoundMsg :=
    "未找到 claude CLI。请确保已安装 Claude Code CLI 并添加到 PATH。\n安装指南：https://docs.anthropic.com/en/docs/claude-code",
  emptyResultPrefix := "未能获取 Coder 响应内容。\n\n" }

/-- claude.py configuration (message texts: lines 160-161, 566). -/
def claudeCfg : ToolCfg :=
{ toolName := "claude",
  catchUnexpected := false,
  suggestions := false,
  cmdNotFoundMsg := "未找到 claude CLI。请确保已安装 Claude Code CLI 并添加到 PATH。",
  emptyResultPrefix := "未能获取 Claude 响应内容。\n\n" }

/-- The mutable per-attempt variables of coder.py lines 692-703 and
claude.py lines 451-462 that the interpretation of output lines touches
(all_messages is not tracked: no claim concerns its content, only the
exception its construction can raise). -/
structure RunState where
  resultContent : Json
  hadError : Bool
  errMessage : Json
  sessionId : Option Json
  jsonDecodeErrors : Nat
  errorKind : Option ErrorKind
  lastLines : List Line
  assistantTextParts : List Json

/-- Initial values of the per-attempt variables. -/
def initRunState : RunState :=
{ resultContent := Json.str "", hadError := false, errMessage := Json.str "",
  sessionId := none, jsonDecodeErrors := 0, errorKind := none,
  lastLines := [], assistantTextParts := [] }

/-- The message fragment appended by the handler of coder.py line 774. The
exception is represented by its type name. -/
def unexpectedSuffix (e : String) (l : Line) : String :=
"\n\n[unexpected error] " ++ e ++ ". Line: " ++ lineRepr l

/-- coder.py lines 719-729 / claude.py lines 477-488: under
return_all_messages a user message is deep-copied and redacted before being
appended to all_messages. The copy raises AttributeError when the message
field holds a non-object; apart from that the branch only appends to
all_messages, which is not tracked. -/
def checkUserCopy (j : Json) : Except String Unit :=
match j.getField? "message" with
| some (Json.obj _) => Except.ok ()
| none => Except.ok ()
| some _ => Except.error "AttributeError"

/-- coder.py lines 744-748 / claude.py lines 496-500: a content block of an
assistant message contributes its text field when the block is an object
tagged text and the text value is truthy. -/
def textOfBlock (b : Json) : Option Json :=
match b with
| Json.obj fs =>
  if tagOf b "type" = "text" then
    (match (lookupField fs "text").getD (Json.str "") with
     | t => if pyTruthy t then some t else none)
  else none
| _ => none

/-- coder.py lines 738-748 / claude.py lines 492-500: the assistant branch.
message.get raises AttributeError when the message field holds a
non-object; an absent message field defaults to an empty dict whose content
is None. -/
def processAssistant (st : RunState) (j : Json) : Except String RunState :=
match j.getField? "message" with
| some (Json.obj mf) =>
  Except.ok
    (match lookupField mf "content" with
     | some (Json.arr blocks) =>
       { st with assistantTextParts :=
           st.assistantTextParts ++ blocks.filterMap textOfBlock }
     | _ => st)
| none => Except.ok st
| some _ => Except.error "AttributeError"

/-- coder.py lines 751-761 / claude.py lines 501-509: the result branch. -/
def processResult (st : RunState) (j : Json) : RunState :=
let st1 :=
  if hasKey j "result" then
    { st with resultContent := (j.getField? "result").getD (Json.str "") }
  else st
let st2 :=
  if pyFalsyOpt st1.sessionId ∧ hasKey j "session_id" then
    { st1 with sessionId := pyGetOpt j "session_id" }
  else st1
if pyTruthy ((j.getField? "is_error").getD Json.null) then
  { st2 with hadError := true,
             errMessage := pyOr ((j.getField? "result").getD (Json.str ""))
                                ((j.getField? "error").getD (Json.str "")),
             errorKind := some ErrorKind.upstreamError }
else st2

/-- coder.py lines 763-767 / claude.py lines 510-514: the error branch.
error_data.get raises AttributeError when the error field holds a
non-object; an absent error field defaults to an empty dict, whose missing
message key falls back to str(line_dict). -/
def processError (st : RunState) (j : Json) : Except String RunState :=
match j.getField? "error" with
| some (Json.obj ef) =>
  Except.ok { st with
                hadError := true,
                errMessage := (lookupField ef "message").getD (Json.str (serialize true j)),
                errorKind := some ErrorKind.upstreamError }
| none =>
  Except.ok { st with
                hadError := true,
                errMessage := Json.str (serialize true j),
                errorKind := some ErrorKind.upstreamError }
| some _ => Except.error "AttributeError"

/-- Interpretation of one output line, coder.py lines 713-767 / claude.py
lines 472-514. A line that fails structured decoding counts a decode error
and is skipped; interpreting a decoded non-object raises AttributeError at
line_dict.get. -/
def interpretLine (ras : Bool) (st : RunState) (l : Line) : Except String RunState :=
match l with
| Line.raw _ => Except.ok { st with jsonDecodeErrors := st.jsonDecodeErrors + 1 }
| Line.json j =>
  match j with
  | Json.obj _ =>
    let mt := tagOf j "type"
    (match (if ras ∧ mt = "user" then checkUserCopy j else Except.ok ()) with
     | Except.error e => Except.error e
     | Except.ok _ =>
       if mt = "system" ∧ tagOf j "subtype" = "init" then
         Except.ok { st with sessionId := pyGetOpt j "session_id" }
       else if mt = "assistant" then processAssistant st j
       else if mt = "result" then Except.ok (processResult st j)
       else if mt = "error" then processError st j
       else Except.ok st)
  | _ => Except.error "AttributeError"

/-- coder.py lines 709-711 / claude.py lines 468-470: the line is appended
to the trailing window before interpretation; the window is capped at 50 by
dropping the oldest entry. -/
def pushLastLine (st : RunState) (l : Line) : RunState :=
let ls := st.lastLines ++ [l]
{ st with lastLines := if ls.length > 50 then ls.tail else ls }

/-- How the consumption of the line stream ended. -/
inductive FoldResult where
| consumed (st : RunState)
| broke (st : RunState)
| raised (e : String)

/-- The for-loop over yielded lines. On an exception other than a decode
failure, coder.py lines 773-777 append a diagnostic to err_message, flag
the attempt and break out of the loop (the append itself raises TypeError
when err_message holds a non-string); claude.py has no handler and the
exception propagates. -/
def foldLines (cfg : ToolCfg) (ras : Bool) : RunState → List Line → FoldResult
| st, [] => FoldResult.consumed st
| st, l :: rest =>
  let st1 := pushLastLine st l
  match interpretLine ras st1 l with
  | Except.ok st2 => foldLines cfg ras st2 rest
  | Except.error e =>
    if cfg.catchUnexpected then
      match st1.errMessage with
      | Json.str m =>
        FoldResult.broke { st1 with
                             hadError := true,
                             errMessage := Json.str (m ++ unexpectedSuffix e l),
                             errorKind := some ErrorKind.unexpectedException }
      | _ => FoldResult.raised "TypeError"
    else FoldResult.raised e

/-- Python str.join requires every part to be a string and raises
TypeError otherwise. -/
def strOnly : Json → Except String String
| Json.str s => Except.ok s
| _ => Except.error "TypeError"

/-- coder.py lines 784-785 / claude.py lines 522-523: when no result
content was taken from a result message, fall back to the assistant text
fragments joined by a blank line. -/
def fallbackJoin (st : RunState) : Except String RunState :=
if (! pyTruthy st.resultContent) ∧ (! st.assistantTextParts.isEmpty) then
  match st.assistantTextParts.mapM strOnly with
  | Except.ok parts =>
    Except.ok { st with resultContent := Json.str (String.intercalate "\n\n" parts) }
  | Except.error e => Except.error e
else Except.ok st

/-- The verdict of one attempt after the classification checks. -/
structure Classified where
  success : Bool
  errorKind : Option ErrorKind
  errMessage : Json
  resultContent : Json
  sessionId : Option Json

/-- Python string concatenation prefix + err_message; raises TypeError when
err_message holds a non-string. -/
def pyPrepend (p : String) (m : Json) : Except String Json :=
match m with
| Json.str s => Except.ok (Json.str (p ++ s))
| _ => Except.error "TypeError"

/-- The diagnostic prefix of coder.py line 832 / claude.py line 561. -/
def sessionPrefix : String := "未能获取 SESSION_ID。\n\n"

/-- The running triple (success, error_kind, err_message) threaded through
the classification checks. -/
abbrev ClassAcc := Bool × Option ErrorKind × Json

/-- coder.py lines 828-832 / claude.py lines 557-561: the missing-session
check forces failure, assigns protocol_missing_session only when no kind is
recorded yet, and prepends the diagnostic prefix to the message. -/
def checkSession (sessionId : Option Json) (acc : ClassAcc) : Except String ClassAcc :=
if sessionId.isNone then
  match pyPrepend sessionPrefix acc.2.2 with
  | Except.ok m =>
    Except.ok (false, some (acc.2.1.getD ErrorKind.protocolMissingSession), m)
  | Except.error e => Except.error e
else Except.ok acc

/-- coder.py lines 834-838 / claude.py lines 562-566: the empty-result
check, applied only while the attempt still counts as successful. -/
def checkEmpty (cfg : ToolCfg) (resultContent : Json) (acc : ClassAcc) :
    Except String ClassAcc :=
if (! pyTruthy resultContent) ∧ acc.1 then
  match pyPrepend cfg.emptyResultPrefix acc.2.2 with
  | Except.ok m => Except.ok (false, some (acc.2.1.getD ErrorKind.emptyResult), m)
  | Except.error e => Except.error e
else Except.ok acc

/-- coder.py lines 841-845 / claude.py lines 567-571: the exit-code check,
applied only to a known non-zero exit code while the attempt still counts
as successful. -/
def checkExit (exitCode : Option Int) (acc : ClassAcc) : Except String ClassAcc :=
match exitCode with
| some ec =>
  if ec ≠ 0 ∧ acc.1 then
    match pyPrepend ("进程退出码非零：" ++ toString ec ++ "\n\n") acc.2.2 with
    | Except.ok m => Except.ok (false, some (acc.2.1.getD ErrorKind.subprocessError), m)
    | Except.error e => Except.error e
  else Except.ok acc
| none => Except.ok acc

/-- The per-attempt outcome classification, coder.py lines 824-845 /
claude.py lines 555-571: failure when a line flagged an error, then the
missing-session check, the empty-result check and the exit-code check in
that order. -/
def classify (cfg : ToolCfg) (st : RunState) (exitCode : Option Int) :
    Except String Classified :=
match checkSession st.sessionId (! st.hadError, st.errorKind, st.errMessage) with
| Except.error e => Except.error e
| Except.ok a1 =>
  match checkEmpty cfg st.resultContent a1 with
  | Except.error e => Except.error e
  | Except.ok a2 =>
    match checkExit exitCode a2 with
    | Except.error e => Except.error e
    | Except.ok a3 =>
      Except.ok { success := a3.1, errorKind := a3.2.1, errMessage := a3.2.2,
                  resultContent := st.resultContent, sessionId := st.sessionId }

/-- The complete per-attempt classifier: interpret the captured line
sequence, apply the assistant-text fallback, then classify against the
exit code. This is the function claim C8 quantifies over. -/
def classifierRun (cfg : ToolCfg) (ras : Bool) (lines : List Line)
    (exitCode : Option Int) : Except String Classified :=
match foldLines cfg ras initRunState lines with
| FoldResult.raised e => Except.error e
| FoldResult.consumed st =>
  (match fallbackJoin st with
   | Except.ok st2 => classify cfg st2 exitCode
   | Except.error e => Except.error e)
| FoldResult.broke st =>
  (match fallbackJoin st with
   | Except.ok st2 => classify cfg st2 exitCode
   | Except.error e => Except.error e)

/-- coder.py lines 544-547 / claude.py lines 339-341: replace the content
field of a tool_result block with the fixed marker, keeping every other
field in place. -/
def redactBlock (b : Json) : Json :=
match b with
| Json.obj fs =>
  if isTypeTag b "tool_result" then Json.obj (setKey fs "content" (Json.str "[truncated]"))
  else b
| _ => b

/-- One line of _filter_last_lines, coder.py lines 531-558 / claude.py
lines 330-348: a decoded user message whose message field is an object
with a list content has every tool_result block redacted and is
re-serialized; every other case (raw line, non-object line, non-user type,
non-object message raising the caught AttributeError, non-list content)
keeps the line verbatim. -/
def filterLine (l : Line) : Line :=
match l with
| Line.raw s => Line.raw s
| Line.json j =>
  match j with
  | Json.obj fs =>
    if tagOf j "type" = "user" then
      match lookupField fs "message" with
      | some (Json.obj mf) =>
        (match lookupField mf "content" with
         | some (Json.arr blocks) =>
           Line.json (Json.obj (setKey fs "message"
             (Json.obj (setKey mf "content" (Json.arr (blocks.map redactBlock))))))
         | _ => l)
      | some _ => l
      | none => l
    else l
  | _ => l

/-- Python negative-start slicing lst[-n:], which yields the whole list
when n is zero. -/
def pyTakeLast (n : Nat) (l : List α) : List α :=
if n = 0 then l else l.drop (l.length - n)

/-- _filter_last_lines, coder.py lines 523-560 / claude.py lines 327-349:
redact every line, then keep the trailing maxLines entries (both call
sites pass 50, the default of the source). -/
def filterLastLines (lines : List Line) (maxLines : Nat) : List Line :=
pyTakeLast maxLines (lines.map filterLine)

/-- The structured error detail built by _build_error_detail, coder.py
lines 563-594 / claude.py lines 352-374. Fields the source leaves out of
the dict are modelled as none. -/
structure ErrorDetail where
  message : String
  exitCode : Option Int
  lastLines : Option (List Line)
  jsonDecodeErrors : Option Nat
  idleTimeoutS : Option Int
  maxDurationS : Option Int
  suggestion : Option String
  retries : Option Nat

/-- Suggestion string of coder.py lines 582-585. -/
def idleSuggestion : String :=
"任务空闲超时（无输出）。建议：1) 增加 timeout 参数 2) 检查任务是否卡住 3) 拆分为更小的子任务"

/-- Suggestion string of coder.py lines 588-591. -/
def maxDurationSuggestion : String :=
"任务总时长超时。建议：1) 增加 max_duration 参数 2) 拆分为更小的子任务 3) 检查是否存在死循环"

/-- _build_error_detail, coder.py lines 563-594 / claude.py lines 352-374:
exit code only when known, trailing lines (redacted, capped at 50) only
when non-empty, decode-error count only when positive, the threshold of the
timeout kind that fired together with (coder only) a remediation hint, and
the retry count only when positive. -/
def buildErrorDetail (cfg : ToolCfg) (message : String) (exitCode : Option Int)
    (lastLines : List Line) (jsonDecodeErrors : Nat)
    (idleTimeoutS maxDurationS : Option Int) (retries : Nat) : ErrorDetail :=
{ message := message,
  exitCode := exitCode,
  lastLines := if lastLines.isEmpty then none else some (filterLastLines lastLines 50),
  jsonDecodeErrors := if jsonDecodeErrors > 0 then some jsonDecodeErrors else none,
  idleTimeoutS := idleTimeoutS,
  maxDurationS := maxDurationS,
  suggestion :=
    if cfg.suggestions then
      (if maxDurationS.isSome then some maxDurationSuggestion
       else if idleTimeoutS.isSome then some idleSuggestion
       else none)
    else none,
  retries := if retries > 0 then some retries else none }

/-- The dictionary a tool call returns, coder.py lines 883-913 / claude.py
lines 603-631. The duration string and the optional metrics and
all_messages entries are wall-clock data no claim concerns and are not
modelled. -/
structure Outcome where
  success : Bool
  tool : String
  sessionId : Option Json
  result : Option Json
  error : Option Json
  errorKind : Option ErrorKind
  errorDetail : Option ErrorDetail

/-- The last_error dictionary saved by the retry loop, coder.py lines
815-821 and 853-859 (raw_output_lines is metrics-only and not tracked). -/
structure LastError where
  errorKind : Option ErrorKind
  errMessage : Json
  exitCode : Option Int
  jsonDecodeErrors : Nat

/-- The text before the first newline (the whole string when it has none),
that is err_message.split with separator newline, at index zero. -/
def firstLine (s : String) : String :=
String.mk (s.data.takeWhile (fun c => c != '\n'))

/-- coder.py line 904 / claude.py line 622: err_message.split for a truthy
message (raising AttributeError on a truthy non-string), the fixed unknown
placeholder for a falsy one. -/
def pyFirstLineOrUnknown (m : Json) : Except String String :=
if pyTruthy m then
  match m with
  | Json.str s => Except.ok (firstLine s)
  | _ => Except.error "AttributeError"
else Except.ok "未知错误"

/-- The failure branch of the result construction after the retry loop,
coder.py lines 890-913 / claude.py lines 610-631: the top-level error entry
carries the whole saved message, the nested detail carries only its first
line, the timeout thresholds are attached according to the error kind. -/
def finalizeFailure (cfg : ToolCfg) (idleTimeout maxDuration : Int)
    (le : LastError) (allLastLines : List Line) (retries : Nat) :
    Except String Outcome :=
match pyFirstLineOrUnknown le.errMessage with
| Except.error e => Except.error e
| Except.ok msgHead =>
  Except.ok
    { success := false, tool := cfg.toolName, sessionId := none, result := none,
      error := some le.errMessage,
      errorKind := le.errorKind,
      errorDetail := some (buildErrorDetail cfg msgHead le.exitCode allLastLines
        le.jsonDecodeErrors
        (if le.errorKind = some ErrorKind.idleTimeout then some idleTimeout else none)
        (if le.errorKind = some ErrorKind.timeout then some maxDuration else none)
        retries) }

/-- The early return of coder.py lines 787-805 / claude.py lines 525-538
when the executable cannot be resolved. -/
def cmdNotFoundOutcome (cfg : ToolCfg) : Outcome :=
{ success := false, tool := cfg.toolName, sessionId := none, result := none,
  error := some (Json.str cfg.cmdNotFoundMsg),
  errorKind := some ErrorKind.commandNotFound,
  errorDetail := some (buildErrorDetail cfg cfg.cmdNotFoundMsg none [] 0 none none 0) }

/-- The early return of coder.py lines 645-660 / claude.py lines 412-426
when configuration loading fails, with the exception text opaque. -/
def configErrorOutcome (cfg : ToolCfg) (e : String) : Outcome :=
{ success := false, tool := cfg.toolName, sessionId := none, result := none,
  error := some (Json.str ("配置加载失败：" ++ e)),
  errorKind := some ErrorKind.configError,
  errorDetail := some (buildErrorDetail cfg ("配置加载失败：" ++ e) none [] 0 none none 0) }

/-- The success branch of the result construction, coder.py lines 883-889 /
claude.py lines 603-609. -/
def successOutcome (cfg : ToolCfg) (c : Classified) : Outcome :=
{ success := true, tool := cfg.toolName, sessionId := c.sessionId,
  result := some c.resultContent, error := none, errorKind := none,
  errorDetail := none }

/-- How the line generator of one attempt ended: a raised dual-timeout
signal carrying the is_idle flag and the exception text, or normal
exhaustion. -/
inductive GenTerm where
| timeoutSignal (isIdle : Bool) (msg : String)
| exhausted

/-- One attempt as observed by the tool function: the yielded lines and the
way the generator ended. -/
structure GenRun where
  lines : List Line
  term : GenTerm

/-- What the environment presents to one attempt: either command resolution
fails before any line is produced, or the generator runs. -/
inductive AttemptEvent where
| commandNotFound
| run (g : GenRun)

/-- The result of one attempt body. -/
inductive AttemptOutcome where
| raisedOut (e : String)
| timeoutFail (isIdle : Bool) (msg : String) (st : RunState)
| done (st : RunState) (c : Classified)

/-- One attempt body, coder.py lines 705-845 / claude.py lines 464-571. The
exit code passed to the classification is always none and the raw line
count stays zero: the except StopIteration of coder.py line 778 / claude.py
line 518 never receives the generator return value, because the for
statement itself consumes the StopIteration of an exhausted generator. A
timeout signal reaches the handler only when interpreting the yielded lines
neither raised nor broke, since either of those abandons the generator
before it can raise. -/
def runAttempt (cfg : ToolCfg) (ras : Bool) (g : GenRun) : AttemptOutcome :=
match foldLines cfg ras initRunState g.lines with
| FoldResult.raised e => AttemptOutcome.raisedOut e
| FoldResult.broke st =>
  (match fallbackJoin st with
   | Except.error e => AttemptOutcome.raisedOut e
   | Except.ok st2 =>
     match classify cfg st2 none with
     | Except.error e => AttemptOutcome.raisedOut e
     | Except.ok c => AttemptOutcome.done st2 c)
| FoldResult.consumed st =>
  match g.term with
  | GenTerm.timeoutSignal isIdle msg => AttemptOutcome.timeoutFail isIdle msg st
  | GenTerm.exhausted =>
    (match fallbackJoin st with
     | Except.error e => AttemptOutcome.raisedOut e
     | Except.ok st2 =>
       match classify cfg st2 none with
       | Except.error e => AttemptOutcome.raisedOut e
       | Except.ok c => AttemptOutcome.done st2 c)

/-- The backoff slept before re-invoking after the failed attempt with
index k: coder.py line 864 / claude.py line 586 sleep
0.5 * 2 ** (retries - 1) immediately after incrementing retries, which is
0.5 * 2 ** k for the attempt just failed. -/
def backoff (k : Nat) : ℚ := (1 / 2 : ℚ) * 2 ^ k

/-- coder.py line 809 / claude.py line 541: the error kind derived from the
is_idle flag of a caught timeout signal. -/
def timeoutKind (isIdle : Bool) : ErrorKind :=
if isIdle then ErrorKind.idleTimeout else ErrorKind.timeout

/-- The observable run of the whole retry loop: the returned value (or the
exception that escaped), the number of attempt bodies executed, the backoff
intervals slept in order, and the final retries counter. -/
structure LoopResult where
  result : Except String Outcome
  attempts : Nat
  sleeps : List ℚ
  retries : Nat

/-- The retry loop, coder.py lines 687-913 / claude.py lines 446-631,
unrolled on the fuel argument (the loop runs at most maxRetries + 1
iterations, and the zero-fuel case is unreachable from retryLoop). A
caught command-not-found returns at once; a caught timeout saves last_error
and breaks; a classified failure saves last_error and either sleeps the
backoff and retries or breaks; the final verdict is built from the saved
last_error. -/
def retryGo (cfg : ToolCfg) (ras : Bool) (idleTimeout maxDuration : Int)
    (maxRetries : Nat) (events : Nat → AttemptEvent) :
    Nat → Nat → Nat → List ℚ → LoopResult
| r, 0, attempts, sleeps =>
  { result := Except.error "unreachable", attempts := attempts,
    sleeps := sleeps, retries := r }
| r, fuel + 1, attempts, sleeps =>
  match events r with
  | AttemptEvent.commandNotFound =>
    { result := Except.ok (cmdNotFoundOutcome cfg), attempts := attempts + 1,
      sleeps := sleeps, retries := r }
  | AttemptEvent.run g =>
    match runAttempt cfg ras g with
    | AttemptOutcome.raisedOut e =>
      { result := Except.error e, attempts := attempts + 1,
        sleeps := sleeps, retries := r }
    | AttemptOutcome.timeoutFail isIdle msg st =>
      { result := finalizeFailure cfg idleTimeout maxDuration
          { errorKind := some (timeoutKind isIdle), errMessage := Json.str msg,
            exitCode := none, jsonDecodeErrors := st.jsonDecodeErrors }
          st.lastLines r,
        attempts := attempts + 1, sleeps := sleeps, retries := r }
    | AttemptOutcome.done st c =>
      if c.success then
        { result := Except.ok (successOutcome cfg c), attempts := attempts + 1,
          sleeps := sleeps, retries := r }
      else if r < maxRetries then
        retryGo cfg ras idleTimeout maxDuration maxRetries events
          (r + 1) fuel (attempts + 1) (sleeps ++ [backoff r])
      else
        { result := finalizeFailure cfg idleTimeout maxDuration
            { errorKind := c.errorKind, errMessage := c.errMessage,
              exitCode := none, jsonDecodeErrors := st.jsonDecodeErrors }
            st.lastLines r,
          attempts := attempts + 1, sleeps := sleeps, retries := r }

/-- The retry loop entered as in the source: retries = 0 and fuel for the
maximal maxRetries + 1 iterations. -/
def retryLoop (cfg : ToolCfg) (ras : Bool) (idleTimeout maxDuration : Int)
    (maxRetries : Nat) (events : Nat → AttemptEvent) : LoopResult :=
retryGo cfg ras idleTimeout maxDuration maxRetries events 0 (maxRetries + 1) 0 []

/-- The whole tool function: configuration loading (external to src, kept
opaque as an optional failure text) then the retry loop. -/
def toolModel (cfg : ToolCfg) (ras : Bool) (configErr : Option String)
    (idleTimeout maxDuration : Int) (maxRetries : Nat)
    (events : Nat → AttemptEvent) : LoopResult :=
match configErr with
| some e =>
  { result := Except.ok (configErrorOutcome cfg e), attempts := 0,
    sleeps := [], retries := 0 }
| none => retryLoop cfg ras idleTimeout maxDuration maxRetries events

/-- The supervisor verdict of one poll cycle. -/
inductive SupervisorVerdict where
| durationTimedOut
| idleTimedOut
| proceed
deriving DecidableEq

/-- One poll cycle of the dual-timeout supervisor, coder.py lines 450-465 /
claude.py lines 255-270: the max-duration ceiling (only when positive) is
checked before the idle window. Instants are rationals standing for the
float seconds of time.time(). -/
def pollVerdict (maxDuration idleTimeout now startTime lastActivity : ℚ) :
    SupervisorVerdict :=
if maxDuration > 0 ∧ now - startTime ≥ maxDuration then SupervisorVerdict.durationTimedOut
else if now - lastActivity ≥ idleTimeout then SupervisorVerdict.idleTimedOut
else SupervisorVerdict.proceed

/-- The is_idle flag of the timeout signal a timed-out verdict raises
(coder.py lines 454-465 / claude.py lines 259-270). -/
def verdictIsIdle : SupervisorVerdict → Option Bool
| SupervisorVerdict.durationTimedOut => some false
| SupervisorVerdict.idleTimedOut => some true
| SupervisorVerdict.proceed => none

/-- Invariant of the per-attempt state: whenever a line has flagged an
error a kind is recorded, and every recorded kind belongs to the nine
assignable kinds. -/
def KindInv (st : RunState) : Prop :=
(st.hadError = true → st.errorKind.isSome) ∧
(∀ k, st.errorKind = some k → k ∈ allKinds)

/-- The same invariant for the accumulator of the classification checks:
a failed verdict carries a kind, and every kind is one of the nine. -/
def AccInv (acc : ClassAcc) : Prop :=
(acc.1 = false → acc.2.1.isSome) ∧
(∀ k, acc.2.1 = some k → k ∈ allKinds)

/-- Shorthand for an attempt whose generator yields the given lines and
then ends by normal exhaustion. -/
def exhaustedRun (lines : List Line) : AttemptEvent :=
AttemptEvent.run { lines := lines, term := GenTerm.exhausted }

/-- A captured result line that carries result text and the is_error flag
but no session identifier anywhere in the sequence. -/
def c6ExampleLines : List Line :=
[Line.json (Json.obj
  [("type", Json.str "result"), ("result", Json.str "oops"),
   ("is_error", Json.bool true)])]

/-- A line that decodes as valid JSON but not as an object: interpreting it
calls line_dict.get on a list, which raises AttributeError. -/
def nonObjectLine : Line := Line.json (Json.arr [Json.num 1])

/-- An invocation whose first attempt ends in an idle-timeout signal before
any output line. -/
def c1Events : Nat → AttemptEvent :=
fun _ => AttemptEvent.run { lines := [], term := GenTerm.timeoutSignal true "idle" }

/-- An invocation whose attempt yields no lines and exhausts normally. -/
def c3Events : Nat → AttemptEvent := fun _ => exhaustedRun []

/-- A saved last_error with a two-line message, for exercising the failure
epilogue. -/
def c3WitnessLastError : LastError :=
{ errorKind := some ErrorKind.emptyResult, errMessage := Json.str "a\nb",
  exitCode := none, jsonDecodeErrors := 0 }

/-- The outcome the failure epilogue builds from c3WitnessLastError. -/
def c3WitnessOutcome : Outcome :=
{ success := false, tool := "coder", sessionId := none, result := none,
  error := some (Json.str "a\nb"), errorKind := some ErrorKind.emptyResult,
  errorDetail := some
    { message := "a", exitCode := none, lastLines := none,
      jsonDecodeErrors := none, idleTimeoutS := none, maxDurationS := none,
      suggestion := none, retries := none } }

/-- The verdict of classifying an empty capture (no session observed, no
error recorded): failure with kind protocol_missing_session and the
prefixed diagnostic message. -/
def c6WitnessClassified : Classified :=
{ success := false, errorKind := some ErrorKind.protocolMissingSession,
  errMessage := Json.str "未能获取 SESSION_ID。\n\n",
  resultContent := Json.str "", sessionId := none }

/-- A content block list holding one tool_result block with a large
payload. -/
def c7Blocks : List Json :=
[Json.obj [("type", Json.str "tool_result"), ("tool_use_id", Json.str "t1"),
           ("content", Json.str "BIGPAYLOAD")]]

/-- The message object of a captured user line. -/
def c7Mf : List (String × Json) :=
[("role", Json.str "user"), ("content", Json.arr c7Blocks)]

/-- The fields of a captured user line whose content is a list. -/
def c7Fs : List (String × Json) :=
[("type", Json.str "user"), ("message", Json.obj c7Mf)]

/-! Helper lemmas about the building blocks. -/

theorem pyFirstLineOrUnknown_str (s : String) :
    pyFirstLineOrUnknown (Json.str s) =
      Except.ok (if s = "" then "未知错误" else firstLine s) := by
  unfold pyFirstLineOrUnknown pyTruthy
  by_cases h : s = "" <;> simp [h]

theorem finalizeFailure_spec (cfg : ToolCfg) (tS mD : Int) (le : LastError)
    (lines : List Line) (r : Nat) (o : Outcome)
    (h : finalizeFailure cfg tS mD le lines r = Except.ok o) :
    o.success = false ∧ o.errorKind = le.errorKind ∧
    o.error = some le.errMessage ∧
    ∃ d, o.errorDetail = some d ∧
      pyFirstLineOrUnknown le.errMessage = Except.ok d.message := by
  unfold finalizeFailure at h
  cases hm : pyFirstLineOrUnknown le.errMessage with
  | error e => rw [hm] at h; exact Except.noConfusion h
  | ok mh =>
    rw [hm] at h
    simp only [Except.ok.injEq] at h
    subst h
    exact ⟨rfl, rfl, rfl, _, rfl, rfl⟩

theorem finalizeFailure_str (cfg : ToolCfg) (tS mD : Int) (le : LastError)
    (lines : List Line) (r : Nat) (s : String)
    (hs : le.errMessage = Json.str s) :
    ∃ o, finalizeFailure cfg tS mD le lines r = Except.ok o := by
  unfold finalizeFailure
  rw [hs, pyFirstLineOrUnknown_str]
  exact ⟨_, rfl⟩

theorem fallbackJoin_fields (st st' : RunState)
    (h : fallbackJoin st = Except.ok st') :
    st'.errorKind = st.errorKind ∧ st'.hadError = st.hadError ∧
    st'.sessionId = st.sessionId ∧ st'.errMessage = st.errMessage ∧
    st'.lastLines = st.lastLines ∧
    st'.jsonDecodeErrors = st.jsonDecodeErrors := by
  unfold fallbackJoin at h
  split at h
  · cases hm : st.assistantTextParts.mapM strOnly with
    | error e => rw [hm] at h; exact Except.noConfusion h
    | ok parts =>
      rw [hm] at h
      injection h with h
      subst h
      exact ⟨rfl, rfl, rfl, rfl, rfl, rfl⟩
  · injection h with h
    subst h
    exact ⟨rfl, rfl, rfl, rfl, rfl, rfl⟩

theorem checkEmpty_notSuccess (cfg : ToolCfg) (rc : Json) (acc : ClassAcc)
    (h : acc.1 = false) : checkEmpty cfg rc acc = Except.ok acc := by
  unfold checkEmpty
  rw [if_neg]
  intro hc
  rw [h] at hc
  exact Bool.noConfusion hc.2

theorem checkExit_notSuccess (ec : Option Int) (acc : ClassAcc)
    (h : acc.1 = false) : checkExit ec acc = Except.ok acc := by
  cases ec with
  | none => rfl
  | some n =>
    simp only [checkExit]
    rw [if_neg]
    intro hc
    rw [h] at hc
    exact Bool.noConfusion hc.2

theorem checkSession_none (sid : Option Json) (acc : ClassAcc) (a : ClassAcc)
    (hs : sid = none) (h : checkSession sid acc = Except.ok a) :
    a.1 = false ∧ a.2.1 = some (acc.2.1.getD ErrorKind.protocolMissingSession) := by
  subst hs
  unfold checkSession at h
  simp only [Option.isNone_none, if_true] at h
  cases hp : pyPrepend sessionPrefix acc.2.2 with
  | error e => rw [hp] at h; exact Except.noConfusion h
  | ok m =>
    rw [hp] at h
    injection h with h
    subst h
    exact ⟨rfl, rfl⟩

theorem classify_session_none (cfg : ToolCfg) (st : RunState)
    (ec : Option Int) (c : Classified)
    (h : classify cfg st ec = Except.ok c) (hs : st.sessionId = none) :
    c.success = false ∧
    c.errorKind = some (st.errorKind.getD ErrorKind.protocolMissingSession) := by
  unfold classify at h
  cases h1 : checkSession st.sessionId (! st.hadError, st.errorKind, st.errMessage) with
  | error e => rw [h1] at h; exact Except.noConfusion h
  | ok a1 =>
    rw [h1] at h
    dsimp only at h
    obtain ⟨ha1, hk1⟩ := checkSession_none _ _ _ hs h1
    rw [checkEmpty_notSuccess cfg st.resultContent a1 ha1] at h
    dsimp only at h
    rw [checkExit_notSuccess ec a1 ha1] at h
    dsimp only at h
    injection h with h
    subst h
    exact ⟨ha1, hk1⟩

theorem accInv_init (st : RunState) (h : KindInv st) :
    AccInv (! st.hadError, st.errorKind, st.errMessage) := by
  obtain ⟨h1, h2⟩ := h
  constructor
  · intro hf
    apply h1
    simpa using hf
  · exact h2

theorem accInv_force (acc : ClassAcc) (k0 : ErrorKind) (m : Json)
    (hk0 : k0 ∈ allKinds) (hi : AccInv acc) :
    AccInv (false, some (acc.2.1.getD k0), m) := by
  constructor
  · intro _
    rfl
  · intro k hk
    injection hk with hk
    subst hk
    cases hacc : acc.2.1 with
    | none => simpa using hk0
    | some k1 =>
      simp only [Option.getD_some]
      exact hi.2 k1 hacc

theorem checkSession_accInv (sid : Option Json) (acc a : ClassAcc)
    (hi : AccInv acc) (h : checkSession sid acc = Except.ok a) : AccInv a := by
  unfold checkSession at h
  split at h
  · cases hp : pyPrepend sessionPrefix acc.2.2 with
    | error e => rw [hp] at h; exact Except.noConfusion h
    | ok m =>
      rw [hp] at h
      injection h with h
      subst h
      exact accInv_force acc ErrorKind.protocolMissingSession m (by decide) hi
  · injection h with h
    subst h
    exact hi

theorem checkEmpty_accInv (cfg : ToolCfg) (rc : Json) (acc a : ClassAcc)
    (hi : AccInv acc) (h : checkEmpty cfg rc acc = Except.ok a) : AccInv a := by
  unfold checkEmpty at h
  split at h
  · cases hp : pyPrepend cfg.emptyResultPrefix acc.2.2 with
    | error e => rw [hp] at h; exact Except.noConfusion h
    | ok m =>
      rw [hp] at h
      injection h with h
      subst h
      exact accInv_force acc ErrorKind.emptyResult m (by decide) hi
  · injection h with h
    subst h
    exact hi

theorem checkExit_accInv (ec : Option Int) (acc a : ClassAcc)
    (hi : AccInv acc) (h : checkExit ec acc = Except.ok a) : AccInv a := by
  unfold checkExit at h
  cases ec with
  | none =>
    injection h with h
    subst h
    exact hi
  | some n =>
    dsimp only at h
    split at h
    · cases hp : pyPrepend ("进程退出码非零：" ++ toString n ++ "\n\n") acc.2.2 with
      | error e => rw [hp] at h; exact Except.noConfusion h
      | ok m =>
        rw [hp] at h
        injection h with h
        subst h
        exact accInv_force acc ErrorKind.subprocessError m (by decide) hi
    · injection h with h
      subst h
      exact hi

theorem classify_failure_kind (cfg : ToolCfg) (st : RunState) (ec : Option Int)
    (c : Classified) (hi : KindInv st) (h : classify cfg st ec = Except.ok c)
    (hf : c.success = false) : ∃ k, c.errorKind = some k ∧ k ∈ allKinds := by
  unfold classify at h
  cases h1 : checkSession st.sessionId (! st.hadError, st.errorKind, st.errMessage) with
  | error e => rw [h1] at h; exact Except.noConfusion h
  | ok a1 =>
    rw [h1] at h
    dsimp only at h
    cases h2 : checkEmpty cfg st.resultContent a1 with
    | error e => rw [h2] at h; exact Except.noConfusion h
    | ok a2 =>
      rw [h2] at h
      dsimp only at h
      cases h3 : checkExit ec a2 with
      | error e => rw [h3] at h; exact Except.noConfusion h
      | ok a3 =>
        rw [h3] at h
        dsimp only at h
        injection h with h
        subst h
        have ha3 : AccInv a3 :=
          checkExit_accInv ec a2 a3
            (checkEmpty_accInv cfg st.resultContent a1 a2
              (checkSession_accInv st.sessionId _ a1 (accInv_init st hi) h1) h2) h3
        obtain ⟨k, hk⟩ := Option.isSome_iff_exists.mp (ha3.1 hf)
        exact ⟨k, hk, ha3.2 k hk⟩

theorem kindInv_transfer (old : RunState) {new : RunState}
    (h1 : new.hadError = old.hadError) (h2 : new.errorKind = old.errorKind)
    (hi : KindInv old) : KindInv new := by
  unfold KindInv at hi ⊢
  rw [h1, h2]
  exact hi

theorem kindInv_init : KindInv initRunState := by
  constructor
  · intro h
    simp [initRunState] at h
  · intro k hk
    simp [initRunState] at hk

theorem pushLastLine_fields (st : RunState) (l : Line) :
    (pushLastLine st l).hadError = st.hadError ∧
    (pushLastLine st l).errorKind = st.errorKind := by
  unfold pushLastLine
  exact ⟨rfl, rfl⟩

theorem processAssistant_fields (st st' : RunState) (j : Json)
    (h : processAssistant st j = Except.ok st') :
    st'.hadError = st.hadError ∧ st'.errorKind = st.errorKind := by
  unfold processAssistant at h
  split at h
  · injection h with h
    subst h
    constructor
    · split <;> rfl
    · split <;> rfl
  · injection h with h
    subst h
    exact ⟨rfl, rfl⟩
  · exact Except.noConfusion h

theorem processResult_kindInv (st : RunState) (j : Json) (hi : KindInv st) :
    KindInv (processResult st j) := by
  unfold processResult
  dsimp only
  split
  · constructor
    · intro _
      rfl
    · intro k hk
      injection hk with hk
      subst hk
      decide
  · refine kindInv_transfer st ?_ ?_ hi
    · split <;> split <;> rfl
    · split <;> split <;> rfl

theorem processError_fields (st st' : RunState) (j : Json)
    (h : processError st j = Except.ok st') :
    st'.hadError = true ∧ st'.errorKind = some ErrorKind.upstreamError := by
  unfold processError at h
  split at h
  · injection h with h
    subst h
    exact ⟨rfl, rfl⟩
  · injection h with h
    subst h
    exact ⟨rfl, rfl⟩
  · exact Except.noConfusion h

theorem interpretLine_inv (ras : Bool) (st st' : RunState) (l : Line)
    (hi : KindInv st) (h : interpretLine ras st l = Except.ok st') :
    KindInv st' := by
  unfold interpretLine at h
  cases l with
  | raw s =>
    injection h with h
    subst h
    exact kindInv_transfer st rfl rfl hi
  | json j =>
    cases j with
    | obj fs =>
      dsimp only at h
      cases hcu : (if ras ∧ tagOf (Json.obj fs) "type" = "user"
                   then checkUserCopy (Json.obj fs) else Except.ok ()) with
      | error e => rw [hcu] at h; exact Except.noConfusion h
      | ok u =>
        rw [hcu] at h
        dsimp only at h
        split at h
        · injection h with h
          subst h
          exact kindInv_transfer st rfl rfl hi
        · split at h
          · obtain ⟨h1, h2⟩ := processAssistant_fields st st' (Json.obj fs) h
            exact kindInv_transfer st h1 h2 hi
          · split at h
            · injection h with h
              subst h
              exact processResult_kindInv st (Json.obj fs) hi
            · split at h
              · obtain ⟨h1, h2⟩ := processError_fields st st' (Json.obj fs) h
                constructor
                · intro _
                  rw [h2]
                  rfl
                · intro k hk
                  rw [h2] at hk
                  injection hk with hk
                  subst hk
                  decide
              · injection h with h
                subst h
                exact hi
    | null => exact Except.noConfusion h
    | bool b => exact Except.noConfusion h
    | num n => exact Except.noConfusion h
    | str s => exact Except.noConfusion h
    | arr xs => exact Except.noConfusion h

theorem foldLines_inv (cfg : ToolCfg) (ras : Bool) :
    ∀ (lines : List Line) (st st' : RunState), KindInv st →
    (foldLines cfg ras st lines = FoldResult.consumed st' ∨
     foldLines cfg ras st lines = FoldResult.broke st') → KindInv st' := by
  intro lines
  induction lines with
  | nil =>
    intro st st' hi h
    rcases h with h | h
    · injection h with h
      subst h
      exact hi
    · exact FoldResult.noConfusion h
  | cons l rest ih =>
    intro st st' hi h
    unfold foldLines at h
    dsimp only at h
    have hpush : KindInv (pushLastLine st l) :=
      kindInv_transfer st (pushLastLine_fields st l).1 (pushLastLine_fields st l).2 hi
    cases hint : interpretLine ras (pushLastLine st l) l with
    | ok st2 =>
      rw [hint] at h
      exact ih st2 st' (interpretLine_inv ras (pushLastLine st l) st2 l hpush hint) h
    | error e =>
      rw [hint] at h
      dsimp only at h
      split at h
      · split at h
        · rcases h with h | h
          · exact FoldResult.noConfusion h
          · injection h with h
            subst h
            constructor
            · intro _
              rfl
            · intro k hk
              injection hk with hk
              subst hk
              decide
        · rcases h with h | h <;> exact FoldResult.noConfusion h
      · rcases h with h | h <;> exact FoldResult.noConfusion h

theorem runAttempt_done (cfg : ToolCfg) (ras : Bool) (g : GenRun)
    (st : RunState) (c : Classified)
    (h : runAttempt cfg ras g = AttemptOutcome.done st c) :
    ∃ st0,
      (foldLines cfg ras initRunState g.lines = FoldResult.consumed st0 ∨
       foldLines cfg ras initRunState g.lines = FoldResult.broke st0) ∧
      fallbackJoin st0 = Except.ok st ∧ classify cfg st none = Except.ok c := by
  unfold runAttempt at h
  cases hf : foldLines cfg ras initRunState g.lines with
  | raised e => rw [hf] at h; exact AttemptOutcome.noConfusion h
  | broke st0 =>
    rw [hf] at h
    dsimp only at h
    cases hj : fallbackJoin st0 with
    | error e => rw [hj] at h; exact AttemptOutcome.noConfusion h
    | ok st2 =>
      rw [hj] at h
      dsimp only at h
      cases hc : classify cfg st2 none with
      | error e => rw [hc] at h; exact AttemptOutcome.noConfusion h
      | ok c2 =>
        rw [hc] at h
        injection h with h1 h2
        subst h1
        subst h2
        exact ⟨st0, Or.inr rfl, hj, hc⟩
  | consumed st0 =>
    rw [hf] at h
    dsimp only at h
    cases ht : g.term with
    | timeoutSignal isIdle msg => rw [ht] at h; exact AttemptOutcome.noConfusion h
    | exhausted =>
      rw [ht] at h
      dsimp only at h
      cases hj : fallbackJoin st0 with
      | error e => rw [hj] at h; exact AttemptOutcome.noConfusion h
      | ok st2 =>
        rw [hj] at h
        dsimp only at h
        cases hc : classify cfg st2 none with
        | error e => rw [hc] at h; exact AttemptOutcome.noConfusion h
        | ok c2 =>
          rw [hc] at h
          injection h with h1 h2
          subst h1
          subst h2
          exact ⟨st0, Or.inl rfl, hj, hc⟩

theorem runAttempt_done_failure_kind (cfg : ToolCfg) (ras : Bool) (g : GenRun)
    (st : RunState) (c : Classified)
    (h : runAttempt cfg ras g = AttemptOutcome.done st c)
    (hf : c.success = false) : ∃ k, c.errorKind = some k ∧ k ∈ allKinds := by
  obtain ⟨st0, hfold, hjoin, hclass⟩ := runAttempt_done cfg ras g st c h
  have hinv0 : KindInv st0 :=
    foldLines_inv cfg ras g.lines initRunState st0 kindInv_init hfold
  obtain ⟨e1, e2, -, -, -, -⟩ := fallbackJoin_fields st0 st hjoin
  have hinv : KindInv st := kindInv_transfer st0 e2 e1 hinv0
  exact classify_failure_kind cfg st none c hinv hclass hf

theorem retryGo_failure_kind (cfg : ToolCfg) (ras : Bool) (tS mD : Int)
    (maxRetries : Nat) (events : Nat → AttemptEvent) :
    ∀ (fuel r attempts : Nat) (sleeps : List ℚ) (o : Outcome),
    (retryGo cfg ras tS mD maxRetries events r fuel attempts sleeps).result =
      Except.ok o →
    o.success = false → ∃ k, o.errorKind = some k ∧ k ∈ allKinds := by
  intro fuel
  induction fuel with
  | zero =>
    intro r attempts sleeps o h hf
    exact Except.noConfusion h
  | succ fuel ih =>
    intro r attempts sleeps o h hf
    unfold retryGo at h
    cases hev : events r with
    | commandNotFound =>
      rw [hev] at h
      injection h with h
      subst h
      exact ⟨ErrorKind.commandNotFound, rfl, by decide⟩
    | run g =>
      rw [hev] at h
      dsimp only at h
      cases hra : runAttempt cfg ras g with
      | raisedOut e => rw [hra] at h; exact Except.noConfusion h
      | timeoutFail isIdle msg st =>
        rw [hra] at h
        dsimp only at h
        obtain ⟨-, hk, -, -⟩ := finalizeFailure_spec cfg tS mD _ _ _ o h
        refine ⟨timeoutKind isIdle, hk, ?_⟩
        unfold timeoutKind
        cases isIdle <;> decide
      | done st c =>
        rw [hra] at h
        dsimp only at h
        split at h
        · injection h with h
          subst h
          exact absurd hf (by simp [successOutcome])
        · split at h
          · exact ih (r + 1) (attempts + 1) (sleeps ++ [backoff r]) o h hf
          · obtain ⟨-, hk, -, -⟩ := finalizeFailure_spec cfg tS mD _ _ _ o h
            have hcf : c.success = false := by
              rename_i hnot _
              cases hcs : c.success
              · rfl
              · exact absurd hcs hnot
            obtain ⟨k, hk2, hmem⟩ :=
              runAttempt_done_failure_kind cfg ras g st c hra hcf
            exact ⟨k, by rw [hk]; exact hk2, hmem⟩

theorem retryGo_sched (cfg : ToolCfg) (ras : Bool) (tS mD : Int)
    (maxRetries : Nat) (events : Nat → AttemptEvent) :
    ∀ (fuel r : Nat), r + fuel = maxRetries + 1 → r ≤ maxRetries →
    1 ≤ (retryGo cfg ras tS mD maxRetries events r fuel r
          ((List.range r).map backoff)).attempts ∧
    (retryGo cfg ras tS mD maxRetries events r fuel r
          ((List.range r).map backoff)).attempts ≤ maxRetries + 1 ∧
    (retryGo cfg ras tS mD maxRetries events r fuel r
          ((List.range r).map backoff)).sleeps =
      (List.range ((retryGo cfg ras tS mD maxRetries events r fuel r
          ((List.range r).map backoff)).attempts - 1)).map backoff := by
  intro fuel
  induction fuel with
  | zero =>
    intro r h1 h2
    omega
  | succ fuel ih =>
    intro r h1 h2
    unfold retryGo
    cases hev : events r with
    | commandNotFound =>
      dsimp only
      refine ⟨by omega, by omega, ?_⟩
      simp only [Nat.add_sub_cancel]
    | run g =>
      dsimp only
      cases hra : runAttempt cfg ras g with
      | raisedOut e =>
        dsimp only
        refine ⟨by omega, by omega, ?_⟩
        simp only [Nat.add_sub_cancel]
      | timeoutFail isIdle msg st =>
        dsimp only
        refine ⟨by omega, by omega, ?_⟩
        simp only [Nat.add_sub_cancel]
      | done st c =>
        dsimp only
        split
        · dsimp only
          refine ⟨by omega, by omega, ?_⟩
          simp only [Nat.add_sub_cancel]
        · split
          · have hr : r < maxRetries := by assumption
            have hrw : (List.range r).map backoff ++ [backoff r] =
                (List.range (r + 1)).map backoff := by
              rw [List.range_succ, List.map_append]
              rfl
            rw [hrw]
            exact ih (r + 1) (by omega) (by omega)
          · dsimp only
            refine ⟨by omega, by omega, ?_⟩
            simp only [Nat.add_sub_cancel]

/-! The claims. -/

/-- C4: in every supervisor poll cycle where max_duration is positive and
both the elapsed-since-start time has reached max_duration and the
elapsed-since-last-activity time has reached the idle window, the duration
check is applied first: the verdict is the duration timeout, the raised
signal carries is_idle = false, and the error kind the tool derives from it
is timeout, never idle_timeout. -/
theorem c4_duration_beats_idle
    (maxDuration idleTimeout now startTime lastActivity : ℚ)
    (h1 : 0 < maxDuration) (h2 : maxDuration ≤ now - startTime)
    (_h3 : idleTimeout ≤ now - lastActivity) :
    pollVerdict maxDuration idleTimeout now startTime lastActivity =
      SupervisorVerdict.durationTimedOut ∧
    verdictIsIdle (pollVerdict maxDuration idleTimeout now startTime lastActivity) =
      some false ∧
    timeoutKind false = ErrorKind.timeout ∧
    timeoutKind false ≠ ErrorKind.idleTimeout := by
  have hv : pollVerdict maxDuration idleTimeout now startTime lastActivity =
      SupervisorVerdict.durationTimedOut := by
    unfold pollVerdict
    rw [if_pos ⟨h1, h2⟩]
  exact ⟨hv, by rw [hv]; rfl, rfl, by decide⟩

/-- C4 witness: at max_duration 10, idle window 5, start 0, last activity 0
and now 20 both ceilings have fired and the verdict is the duration
timeout. -/
theorem c4_duration_beats_idle_witness :
    pollVerdict 10 5 20 0 0 = SupervisorVerdict.durationTimedOut ∧
    verdictIsIdle (pollVerdict 10 5 20 0 0) = some false ∧
    timeoutKind false = ErrorKind.timeout ∧
    timeoutKind false ≠ ErrorKind.idleTimeout :=
  c4_duration_beats_idle 10 5 20 0 0 (by norm_num) (by norm_num) (by norm_num)

/-- C5: when the executable cannot be resolved the tool returns the
command_not_found failure at once: exactly one attempt body runs, no
backoff is slept, and the outcome is the command_not_found failure, for
every retry bound (in particular when max_retries is positive). -/
theorem c5_command_not_found_not_retried (cfg : ToolCfg) (ras : Bool)
    (tS mD : Int) (maxRetries : Nat) (events : Nat → AttemptEvent)
    (h : events 0 = AttemptEvent.commandNotFound) :
    (retryLoop cfg ras tS mD maxRetries events).attempts = 1 ∧
    (retryLoop cfg ras tS mD maxRetries events).sleeps = [] ∧
    (retryLoop cfg ras tS mD maxRetries events).result =
      Except.ok (cmdNotFoundOutcome cfg) ∧
    (cmdNotFoundOutcome cfg).success = false ∧
    (cmdNotFoundOutcome cfg).errorKind = some ErrorKind.commandNotFound := by
  unfold retryLoop retryGo
  rw [h]
  exact ⟨rfl, rfl, rfl, rfl, rfl⟩

/-- C5 witness: with max_retries 3 and an unresolvable executable the loop
still performs a single attempt and returns the command_not_found
outcome. -/
theorem c5_command_not_found_not_retried_witness :
    (retryLoop coderCfg false 300 1800 3 (fun _ => AttemptEvent.commandNotFound)).attempts = 1 ∧
    (retryLoop coderCfg false 300 1800 3 (fun _ => AttemptEvent.commandNotFound)).sleeps = [] ∧
    (retryLoop coderCfg false 300 1800 3 (fun _ => AttemptEvent.commandNotFound)).result =
      Except.ok (cmdNotFoundOutcome coderCfg) ∧
    (cmdNotFoundOutcome coderCfg).success = false ∧
    (cmdNotFoundOutcome coderCfg).errorKind = some ErrorKind.commandNotFound :=
  c5_command_not_found_not_retried coderCfg false 300 1800 3
    (fun _ => AttemptEvent.commandNotFound) rfl

/-- C8: the per-attempt classifier is deterministic: two runs over equal
captured line sequences and equal exit codes produce the same verdict
(success flag, error kind, result text, error message); the classification
is a pure function of those inputs. -/
theorem c8_classifier_deterministic (cfg : ToolCfg) (ras : Bool)
    (lines1 lines2 : List Line) (ec1 ec2 : Option Int)
    (hl : lines1 = lines2) (he : ec1 = ec2) :
    classifierRun cfg ras lines1 ec1 = classifierRun cfg ras lines2 ec2 := by
  rw [hl, he]

/-- C8 witness at a concrete capture. -/
theorem c8_classifier_deterministic_witness :
    classifierRun coderCfg false c6ExampleLines none =
      classifierRun coderCfg false c6ExampleLines none :=
  c8_classifier_deterministic coderCfg false c6ExampleLines c6ExampleLines
    none none rfl rfl

/-- C9: the retry orchestrator starts at attempt 0, executes at least one
and at most max_retries + 1 attempt bodies, and the backoff intervals slept
between consecutive attempts are exactly backoff k = 0.5 * 2 ^ k for the
failed attempt indices k = 0, 1, ... in order. -/
theorem c9_retry_backoff_schedule (cfg : ToolCfg) (ras : Bool) (tS mD : Int)
    (maxRetries : Nat) (events : Nat → AttemptEvent) :
    1 ≤ (retryLoop cfg ras tS mD maxRetries events).attempts ∧
    (retryLoop cfg ras tS mD maxRetries events).attempts ≤ maxRetries + 1 ∧
    (retryLoop cfg ras tS mD maxRetries events).sleeps =
      (List.range ((retryLoop cfg ras tS mD maxRetries events).attempts - 1)).map
        backoff ∧
    ∀ k, backoff k = (1 / 2 : ℚ) * 2 ^ k := by
  have h := retryGo_sched cfg ras tS mD maxRetries events (maxRetries + 1) 0
    (by omega) (by omega)
  exact ⟨h.1, h.2.1, h.2.2, fun k => rfl⟩

/-- C10: every outcome the tool returns with success flag false carries a
non-null error kind drawn from the nine assignable kinds of the ErrorKind
enumeration; no path marks an attempt failed with the kind unset. -/
theorem c10_failure_has_error_kind (cfg : ToolCfg) (ras : Bool)
    (configErr : Option String) (tS mD : Int) (maxRetries : Nat)
    (events : Nat → AttemptEvent) (o : Outcome)
    (h : (toolModel cfg ras configErr tS mD maxRetries events).result = Except.ok o)
    (hf : o.success = false) :
    ∃ k, o.errorKind = some k ∧ k ∈ allKinds := by
  unfold toolModel at h
  cases configErr with
  | some e =>
    dsimp only at h
    injection h with h
    subst h
    exact ⟨ErrorKind.configError, rfl, by decide⟩
  | none =>
    dsimp only at h
    unfold retryLoop at h
    exact retryGo_failure_kind cfg ras tS mD maxRetries events
      (maxRetries + 1) 0 0 [] o h hf

/-- C10 witness: a failed configuration load yields the config_error
outcome, whose kind is among the nine. -/
theorem c10_failure_has_error_kind_witness :
    ∃ k, (configErrorOutcome coderCfg "boom").errorKind = some k ∧ k ∈ allKinds :=
  c10_failure_has_error_kind coderCfg false (some "boom") 300 1800 0
    (fun _ => AttemptEvent.commandNotFound) (configErrorOutcome coderCfg "boom")
    rfl rfl

/-- C1 counterexample: with max_retries = 1 and the first attempt failing
by an idle timeout, the engine performs exactly one attempt and sleeps no
backoff although the attempt count 0 is below the bound; the timeout
outcome is returned directly. This refutes the claim that a timeout is
re-invoked under the backoff rule like other retry-eligible failures: the
source breaks out of the retry loop on a caught timeout (coder.py lines
813-822, claude.py lines 545-553). -/
theorem c1_timeout_not_retried_counterexample :
    (0 : Nat) < 1 ∧
    (retryLoop coderCfg false 300 1800 1 c1Events).attempts = 1 ∧
    (retryLoop coderCfg false 300 1800 1 c1Events).sleeps = [] ∧
    ((retryLoop coderCfg false 300 1800 1 c1Events).result.map
        (fun o => (o.success, o.errorKind))) =
      Except.ok (false, some ErrorKind.idleTimeout) := by
  exact ⟨by decide, rfl, rfl, rfl⟩

/-- C1 amended: a duration or idle timeout aborts the retry loop
immediately: the attempt that timed out is the only one executed after it,
no backoff sleep occurs even when the attempt count is below max_retries,
and the returned outcome is the timeout failure whose kind follows the
is_idle flag. (The timeout path of the first attempt is taken whenever
interpreting its yielded lines neither raised nor broke.) -/
theorem c1_amended_timeout_aborts_retry (cfg : ToolCfg) (ras : Bool)
    (tS mD : Int) (maxRetries : Nat) (events : Nat → AttemptEvent)
    (lines : List Line) (isIdle : Bool) (msg : String) (st : RunState)
    (hev : events 0 =
      AttemptEvent.run { lines := lines, term := GenTerm.timeoutSignal isIdle msg })
    (hfold : foldLines cfg ras initRunState lines = FoldResult.consumed st) :
    (retryLoop cfg ras tS mD maxRetries events).attempts = 1 ∧
    (retryLoop cfg ras tS mD maxRetries events).sleeps = [] ∧
    ∃ o, (retryLoop cfg ras tS mD maxRetries events).result = Except.ok o ∧
      o.success = false ∧ o.errorKind = some (timeoutKind isIdle) := by
  have hra : runAttempt cfg ras
      { lines := lines, term := GenTerm.timeoutSignal isIdle msg } =
      AttemptOutcome.timeoutFail isIdle msg st := by
    unfold runAttempt
    rw [hfold]
  unfold retryLoop retryGo
  rw [hev]
  dsimp only
  rw [hra]
  dsimp only
  refine ⟨rfl, rfl, ?_⟩
  obtain ⟨o, ho⟩ := finalizeFailure_str cfg tS mD
    { errorKind := some (timeoutKind isIdle), errMessage := Json.str msg,
      exitCode := none, jsonDecodeErrors := st.jsonDecodeErrors }
    st.lastLines 0 msg rfl
  obtain ⟨hs, hk, -, -⟩ := finalizeFailure_spec cfg tS mD _ _ _ o ho
  exact ⟨o, ho, hs, hk⟩

/-- C1 amended witness: the idle-timeout run with max_retries = 2 executes
one attempt, sleeps nothing and returns the idle_timeout failure. -/
theorem c1_amended_timeout_aborts_retry_witness :
    (retryLoop coderCfg false 300 1800 2 c1Events).attempts = 1 ∧
    (retryLoop coderCfg false 300 1800 2 c1Events).sleeps = [] ∧
    ∃ o, (retryLoop coderCfg false 300 1800 2 c1Events).result = Except.ok o ∧
      o.success = false ∧ o.errorKind = some (timeoutKind true) :=
  c1_amended_timeout_aborts_retry coderCfg false 300 1800 2 c1Events []
    true "idle" initRunState rfl rfl

/-- C2: the claim says every exception raised while interpreting an output
line (other than a decode failure) is captured as an unexpected_exception
outcome and that the tool never raises. coder.py lines 773-777 do capture
it, but the identical loop of claude.py lines 472-517 has no such handler:
on the decoded non-object line [1] the AttributeError from line_dict.get
escapes claude_tool to its caller, while coder_tool returns the
unexpected_exception failure. -/
theorem c2_claude_line_fault_escapes :
    (retryLoop claudeCfg false 300 1800 0
        (fun _ => exhaustedRun [nonObjectLine])).result =
      Except.error "AttributeError" ∧
    ((retryLoop coderCfg false 300 1800 0
        (fun _ => exhaustedRun [nonObjectLine])).result.map
        (fun o => (o.success, o.errorKind))) =
      Except.ok (false, some ErrorKind.unexpectedException) := by
  exact ⟨rfl, rfl⟩

/-- C3 counterexample: a run with an empty capture accumulates the two-line
missing-session diagnostic; the returned top-level error field holds the
full message, newline included, while the nested detail message holds only
its first line — the reverse of the claimed placement. -/
theorem c3_first_line_placement_counterexample :
    ((retryLoop coderCfg false 300 1800 0 c3Events).result.map
        (fun o => (o.error, o.errorDetail.map ErrorDetail.message))) =
      Except.ok (some (Json.str "未能获取 SESSION_ID。\n\n"),
                 some "未能获取 SESSION_ID。") ∧
    "未能获取 SESSION_ID。\n\n" ≠ "未能获取 SESSION_ID。" := by
  exact ⟨rfl, by decide⟩

/-- C3 amended: in every failure outcome built by the epilogue after the
attempt loop the placement is the reverse of the claim: the top-level error
field carries the full accumulated message while the nested detail message
carries only its first line (or the fixed unknown-error placeholder when
the message is falsy). The early-return command_not_found outcome instead
carries its full message in both places. -/
theorem c3_amended_full_message_top_level (cfg : ToolCfg) (tS mD : Int)
    (le : LastError) (lines : List Line) (r : Nat) (o : Outcome)
    (h : finalizeFailure cfg tS mD le lines r = Except.ok o) :
    o.error = some le.errMessage ∧
    (∃ d, o.errorDetail = some d ∧
      (∀ s, le.errMessage = Json.str s → s ≠ "" → d.message = firstLine s) ∧
      (pyTruthy le.errMessage = false → d.message = "未知错误")) ∧
    (cmdNotFoundOutcome cfg).error = some (Json.str cfg.cmdNotFoundMsg) ∧
    (cmdNotFoundOutcome cfg).errorDetail.map ErrorDetail.message =
      some cfg.cmdNotFoundMsg := by
  obtain ⟨-, -, he, d, hd, hm⟩ := finalizeFailure_spec cfg tS mD le lines r o h
  refine ⟨he, ⟨d, hd, ?_, ?_⟩, rfl, rfl⟩
  · intro s hs hne
    rw [hs, pyFirstLineOrUnknown_str, if_neg hne] at hm
    injection hm with hm
    exact hm.symm
  · intro hfalse
    unfold pyFirstLineOrUnknown at hm
    rw [hfalse] at hm
    simp only [Bool.false_eq_true, if_false, Except.ok.injEq] at hm
    exact hm.symm

/-- C3 amended witness: the epilogue applied to a saved two-line message
puts the full message at the top level and its first line in the detail. -/
theorem c3_amended_full_message_top_level_witness :
    c3WitnessOutcome.error = some (Json.str "a\nb") ∧
    (∃ d, c3WitnessOutcome.errorDetail = some d ∧
      (∀ s, c3WitnessLastError.errMessage = Json.str s → s ≠ "" →
        d.message = firstLine s) ∧
      (pyTruthy c3WitnessLastError.errMessage = false → d.message = "未知错误")) ∧
    (cmdNotFoundOutcome coderCfg).error = some (Json.str coderCfg.cmdNotFoundMsg) ∧
    (cmdNotFoundOutcome coderCfg).errorDetail.map ErrorDetail.message =
      some coderCfg.cmdNotFoundMsg := by
  have h := c3_amended_full_message_top_level coderCfg 300 1800
    c3WitnessLastError [] 0 c3WitnessOutcome rfl
  exact ⟨h.1, h.2.1, h.2.2.1, h.2.2.2⟩

/-- C6 counterexample: the capture holds one result line with result text
but flagged is_error, and no session identifier is ever observed; yet the
final kind is upstream_error, not protocol_missing_session, because the
missing-session check of coder.py lines 828-832 assigns its kind only when
none is recorded. -/
theorem c6_missing_session_counterexample :
    ((classifierRun coderCfg false c6ExampleLines none).map
        (fun c => (c.sessionId, c.success, c.errorKind))) =
      Except.ok (none, false, some ErrorKind.upstreamError) ∧
    ((retryLoop coderCfg false 300 1800 0
        (fun _ => exhaustedRun c6ExampleLines)).result.map Outcome.errorKind) =
      Except.ok (some ErrorKind.upstreamError) ∧
    some ErrorKind.upstreamError ≠ some ErrorKind.protocolMissingSession := by
  exact ⟨rfl, rfl, by decide⟩

/-- C6 amended: when no session identifier is observed in the captured line
sequence, the attempt is always classified as a failure and its kind is
protocol_missing_session exactly when the line interpretation recorded no
more specific kind; a kind already recorded (such as upstream_error from a
flagged result line) is kept. -/
theorem c6_amended_missing_session_kind (cfg : ToolCfg) (ras : Bool)
    (lines : List Line) (ec : Option Int) (st st2 : RunState) (c : Classified)
    (_hfold : foldLines cfg ras initRunState lines = FoldResult.consumed st ∨
      foldLines cfg ras initRunState lines = FoldResult.broke st)
    (hjoin : fallbackJoin st = Except.ok st2)
    (hclass : classify cfg st2 ec = Except.ok c)
    (hsess : st.sessionId = none) :
    c.success = false ∧
    c.errorKind = some (st.errorKind.getD ErrorKind.protocolMissingSession) := by
  obtain ⟨ek, -, esess, -, -, -⟩ := fallbackJoin_fields st st2 hjoin
  have h2 := classify_session_none cfg st2 ec c hclass (by rw [esess, hsess])
  rw [ek] at h2
  exact h2

/-- C6 amended witness: for the empty capture the kind defaults to
protocol_missing_session. -/
theorem c6_amended_missing_session_kind_witness :
    c6WitnessClassified.success = false ∧
    c6WitnessClassified.errorKind =
      some (initRunState.errorKind.getD ErrorKind.protocolMissingSession) :=
  c6_amended_missing_session_kind coderCfg false [] none initRunState
    initRunState c6WitnessClassified (Or.inl rfl) rfl rfl rfl

theorem lookupField_setKey_same (fs : List (String × Json)) (key : String)
    (v : Json) : lookupField (setKey fs key v) key = some v := by
  induction fs with
  | nil => simp [setKey, lookupField]
  | cons p rest ih =>
    cases p with
    | mk k w =>
      simp only [setKey]
      split
      · rename_i hk
        simp [lookupField, hk]
      · rename_i hk
        simp [lookupField, hk, ih]

theorem lookupField_setKey_other (fs : List (String × Json)) (key k : String)
    (v : Json) (h : k ≠ key) :
    lookupField (setKey fs key v) k = lookupField fs k := by
  induction fs with
  | nil =>
    simp only [setKey, lookupField]
    rw [if_neg (fun hk : key = k => h hk.symm)]
  | cons p rest ih =>
    cases p with
    | mk k0 w =>
      simp only [setKey]
      split
      · rename_i hk
        subst hk
        simp only [lookupField]
        rw [if_neg (fun hk : k0 = k => h hk.symm)]
        rw [if_neg (fun hk : k0 = k => h hk.symm)]
      · simp only [lookupField]
        split
        · rfl
        · exact ih

/-- C7: the redaction filter keeps at most the trailing 50 lines of the
redacted list (and is exactly that trailing slice); a decoded user line
whose message object has a list content is rewritten with every block
passed through redactBlock inside the same message and content slots; a
key assignment changes exactly the assigned key of an object, so every
other field of the line, of its message object and of each block is kept,
while a tool_result block gets its content field replaced by the fixed
marker and every non tool_result block is kept verbatim. -/
theorem c7_redaction_filter (lines : List Line) :
    (filterLastLines lines 50).length ≤ 50 ∧
    filterLastLines lines 50 = pyTakeLast 50 (lines.map filterLine) ∧
    (∀ (fs mf : List (String × Json)) (blocks : List Json),
      tagOf (Json.obj fs) "type" = "user" →
      lookupField fs "message" = some (Json.obj mf) →
      lookupField mf "content" = some (Json.arr blocks) →
      filterLine (Line.json (Json.obj fs)) =
        Line.json (Json.obj (setKey fs "message"
          (Json.obj (setKey mf "content" (Json.arr (blocks.map redactBlock))))))) ∧
    (∀ (fs : List (String × Json)) (key k : String) (v : Json), k ≠ key →
      lookupField (setKey fs key v) k = lookupField fs k) ∧
    (∀ (fs : List (String × Json)) (key : String) (v : Json),
      lookupField (setKey fs key v) key = some v) ∧
    (∀ b : Json, isTypeTag b "tool_result" = false → redactBlock b = b) ∧
    (∀ bf : List (String × Json), isTypeTag (Json.obj bf) "tool_result" = true →
      redactBlock (Json.obj bf) =
        Json.obj (setKey bf "content" (Json.str "[truncated]"))) := by
  refine ⟨?_, rfl, ?_, ?_, ?_, ?_, ?_⟩
  · unfold filterLastLines pyTakeLast
    rw [if_neg (by decide), List.length_drop]
    omega
  · intro fs mf blocks ht hm hc
    unfold filterLine
    dsimp only
    rw [if_pos ht, hm]
    dsimp only
    rw [hc]
  · exact fun fs key k v h => lookupField_setKey_other fs key k v h
  · exact fun fs key v => lookupField_setKey_same fs key v
  · intro b h
    unfold redactBlock
    cases b <;> simp [h]
  · intro bf h
    unfold redactBlock
    simp [h]

/-- C7 witness: on a concrete captured user line the filter rewrites
exactly the tool_result content, preserving the other keys of the message
object. -/
theorem c7_redaction_filter_witness :
    filterLine (Line.json (Json.obj c7Fs)) =
      Line.json (Json.obj (setKey c7Fs "message"
        (Json.obj (setKey c7Mf "content" (Json.arr (c7Blocks.map redactBlock)))))) ∧
    lookupField (setKey c7Mf "content" (Json.arr (c7Blocks.map redactBlock)))
        "content" = some (Json.arr (c7Blocks.map redactBlock)) ∧
    lookupField (setKey c7Mf "content" (Json.arr (c7Blocks.map redactBlock)))
        "role" = lookupField c7Mf "role" := by
  obtain ⟨-, -, hline, hother, hsame, -, -⟩ :=
    c7_redaction_filter [Line.json (Json.obj c7Fs)]
  exact ⟨hline c7Fs c7Mf c7Blocks rfl rfl rfl,
         hsame c7Mf "content" (Json.arr (c7Blocks.map redactBlock)),
         hother c7Mf "content" "role" (Json.arr (c7Blocks.map redactBlock))
           (by decide)⟩

end CcgMcp
